import Mathlib

/-!
Shallow embedding of `vggsfm/utils/data_processor.py`: the generic
`Processor` (load → dump pipeline) and its dataset adapters
(CO3D, LINEMOD, LINEMOD-Onepose, Car).

Numeric values carried by annotations are modelled as rationals (`ℚ`);
matrices as `List (List ℚ)`; pixel values of 8-bit masks as `ℕ` bounded
by 255; file paths as `String` (or `List Char` where the code splits on
characters); the file system as a partial map from paths to contents.
-/

namespace DataProcessor

/-! ### Path helpers (`os.path` fragments used by the code) -/

/-- `os.path.join(a, b)` for relative `b`. -/
def pjoin (a b : String) : String := a ++ "/" ++ b

/-- Splitting a character list at every occurrence of `c`
(the semantics of Python `str.split(c)`). -/
def splitOnC (c : Char) : List Char → List (List Char)
  | [] => [[]]
  | a :: rest =>
    if a = c then [] :: splitOnC c rest
    else
      match splitOnC c rest with
      | [] => [[a]]
      | h :: t => (a :: h) :: t

/-- `os.path.basename`: the last `/`-separated component. -/
def basenameC (p : List Char) : List Char := (splitOnC '/' p).getLastD []

/-- `os.path.basename(p).split('.')[0]`: the stem the dumper uses for
pose and intrinsics file names (`Processor._dump_data`). -/
def stemC (p : List Char) : List Char := (splitOnC '.' (basenameC p)).headD []

/-- Python `s.replace('.png', '.jpg')` on a character list: every
occurrence of `.png` becomes `.jpg`. -/
def replacePngJpg : List Char → List Char
  | '.' :: 'p' :: 'n' :: 'g' :: rest => '.' :: 'j' :: 'p' :: 'g' :: replacePngJpg rest
  | a :: rest => a :: replacePngJpg rest
  | [] => []

/-! ### Mask pixel processing

`Processor._process_and_save_mask` does
`mask[mask > 127] = 255; mask = cv2.bitwise_not(mask)`;
the `LINEMODProcessor` override uses threshold 0 instead of 127. -/

/-- `cv2.bitwise_not` on a `uint8` pixel. -/
def bitwiseNot8 (v : ℕ) : ℕ := 255 - v

/-- `mask[mask > t] = 255` applied pointwise at one pixel. -/
def threshTo255 (t v : ℕ) : ℕ := if t < v then 255 else v

/-- One pixel of `Processor._process_and_save_mask` (threshold 127). -/
def base_mask_pixel (v : ℕ) : ℕ := bitwiseNot8 (threshTo255 127 v)

/-- One pixel of `LINEMODProcessor._process_and_save_mask` (threshold 0). -/
def linemod_mask_pixel (v : ℕ) : ℕ := bitwiseNot8 (threshTo255 0 v)

/-! ### CO3D adapter -/

/-- One frame record of CO3D `frame_annotations.jgz`, with the fields
the adapter reads. -/
structure CO3DFrame where
  image_path : String
  mask_path : String
  vR : List (List ℚ)
  vT : List ℚ
  focal_length : List ℚ
  principal_point : List ℚ
  image_size : List ℚ
deriving DecidableEq

/-- `T[:, :2] *= -1`: negate the first two entries of the translation. -/
def negFirstTwo (T : List ℚ) : List ℚ :=
  T.mapIdx (fun i t => if i < 2 then -t else t)

/-- `R[:, :, :2] *= -1`: negate the first two columns of the rotation. -/
def negFirstTwoCols (R : List (List ℚ)) : List (List ℚ) :=
  R.map (fun row => row.mapIdx (fun j x => if j < 2 then -x else x))

/-- `R.permute(0, 2, 1)`: transpose of a 3×3 matrix. -/
def transpose3 (R : List (List ℚ)) : List (List ℚ) :=
  (List.range 3).map (fun j => R.map (fun row => row.getD j 0))

/-- 3×3 matrix product. -/
def matMul3 (A B : List (List ℚ)) : List (List ℚ) :=
  (List.range 3).map (fun i => (List.range 3).map (fun j =>
    (List.range 3).foldl
      (fun acc k => acc + ((A.getD i []).getD k 0) * ((B.getD k []).getD j 0)) 0))

/-- 3×3 diagonal matrix from a list of diagonal entries. -/
def diag3 (d : List ℚ) : List (List ℚ) :=
  (List.range 3).map (fun i => (List.range 3).map (fun j =>
    if i = j then d.getD i 0 else 0))

/-- 3×3 identity. -/
def eye3 : List (List ℚ) := [[1, 0, 0], [0, 1, 0], [0, 0, 1]]

/-- `read_pose` of `CO3DProcessor._load_poses`: negate the first two
translation entries and the first two rotation columns, transpose the
rotation, and assemble the 4×4 homogeneous pose
(`pose[:3,:3] = R`, `pose[:3,3] = T`, last row of `eye(4)`). -/
def co3d_read_pose (R : List (List ℚ)) (T : List ℚ) : List (List ℚ) :=
  let R' := transpose3 (negFirstTwoCols R)
  let T' := negFirstTwo T
  (List.range 4).map (fun i => (List.range 4).map (fun j =>
    if i < 3 ∧ j < 3 then (R'.getD i []).getD j 0
    else if i < 3 ∧ j = 3 then T'.getD i 0
    else if i = j then 1 else 0))

/-- `read_intrinsics` of `CO3DProcessor._load_intrinsics`: NDC-to-pixel
conversion using `min(image_size)`; `fy = fx`. -/
def co3d_read_intrinsics (fl pp sz : List ℚ) : List (List ℚ) :=
  let min_size := min (sz.getD 0 0) (sz.getD 1 0)
  let fx := fl.getD 0 0 * min_size / 2
  let fy := fx
  let cx := sz.getD 1 0 / 2 - pp.getD 0 0 * min_size / 2
  let cy := sz.getD 0 0 / 2 - pp.getD 1 0 * min_size / 2
  [[fx, 0, cx], [0, fy, cy], [0, 0, 1]]

/-- `CO3DProcessor._load_rgb_files`. -/
def co3d_load_rgb_files (dp : String) (md : List CO3DFrame) : List String :=
  md.map (fun f => pjoin dp f.image_path)

/-- `CO3DProcessor._load_mask_files`. -/
def co3d_load_mask_files (dp : String) (md : List CO3DFrame) : List String :=
  md.map (fun f => pjoin dp f.mask_path)

/-- `CO3DProcessor._load_poses`. -/
def co3d_load_poses (md : List CO3DFrame) : List (List (List ℚ)) :=
  md.map (fun f => co3d_read_pose f.vR f.vT)

/-- `CO3DProcessor._load_intrinsics`. -/
def co3d_load_intrinsics (md : List CO3DFrame) : List (List (List ℚ)) :=
  md.map (fun f => co3d_read_intrinsics f.focal_length f.principal_point f.image_size)

/-- The length checks at the end of `CO3DProcessor._parse_annotations`
(lines 239–243): raise when fewer frames than requested, and raise
`empty sequence` when the requested length is exactly 0. -/
def co3d_length_check (length : Option ℕ) (md : List CO3DFrame) :
    Except String Unit :=
  if (match length with
      | some L => decide (md.length < L)
      | none => false) then
    Except.error "Length of metadata is smaller than specified length"
  else if length = some 0 then
    Except.error "empty sequence"
  else
    Except.ok ()

/-! ### LINEMOD adapter -/

/-- One entry of `scene_camera.json`: the 9-element `cam_K` array. -/
structure LMCamAnno where
  cam_K : List ℚ
deriving DecidableEq

/-- One entry of `scene_gt.json` (first object of the per-frame list):
`cam_R_m2c` (9 floats, row-major 3×3) and `cam_t_m2c` (3 floats, mm). -/
structure LMPoseAnno where
  cam_R_m2c : List ℚ
  cam_t_m2c : List ℚ
deriving DecidableEq

/-- Row-major reshape of a 9-element list into a 3×3 matrix. -/
def reshape33 (v : List ℚ) : List (List ℚ) :=
  (List.range 3).map (fun i => (List.range 3).map (fun j => v.getD (3 * i + j) 0))

/-- `read_pose` of `LINEMODProcessor._load_poses`: millimetres to
metres on the translation, 4×4 homogeneous assembly. -/
def linemod_read_pose (anno : LMPoseAnno) : List (List ℚ) :=
  let R := reshape33 anno.cam_R_m2c
  (List.range 4).map (fun i => (List.range 4).map (fun j =>
    if i < 3 ∧ j < 3 then (R.getD i []).getD j 0
    else if i < 3 ∧ j = 3 then anno.cam_t_m2c.getD i 0 / 1000
    else if i = j then 1 else 0))

/-- `read_intrinsics` of `LINEMODProcessor._load_intrinsics`:
picks entries 0, 4, 2, 5 of the flattened `cam_K`. -/
def linemod_read_intrinsics (anno : LMCamAnno) : List (List ℚ) :=
  let fx := anno.cam_K.getD 0 0
  let fy := anno.cam_K.getD 4 0
  let cx := anno.cam_K.getD 2 0
  let cy := anno.cam_K.getD 5 0
  [[fx, 0, cx], [0, fy, cy], [0, 0, 1]]

/-- `LINEMODProcessor._load_rgb_files`: every name of the sorted `rgb`
directory listing, joined to the rgb path. -/
def linemod_load_rgb_files (rgbPath : String) (listing : List String) :
    List String :=
  listing.map (fun name => pjoin rgbPath name)

/-- `LINEMODProcessor._load_mask_files`: derived from the same sorted
rgb listing, `name.split('.')[0] + '_000000.png'`. -/
def linemod_load_mask_files (maskPath : String) (listing : List String) :
    List String :=
  listing.map (fun name =>
    pjoin maskPath (((splitOnC '.' name.toList).headD []).asString ++ "_000000.png"))

/-- `LINEMODProcessor._load_poses`. -/
def linemod_load_poses (annos : List LMPoseAnno) : List (List (List ℚ)) :=
  annos.map linemod_read_pose

/-- `LINEMODProcessor._load_intrinsics`. -/
def linemod_load_intrinsics (annos : List LMCamAnno) : List (List (List ℚ)) :=
  annos.map linemod_read_intrinsics

/-- `LINEMODProcessor._parse_annotations` (lines 367–386): converts the
two JSON dicts to lists. It contains no length check and no raise, so it
always succeeds, whatever `length` was requested. -/
def linemod_parse_annos (_length : Option ℕ) (cam : List LMCamAnno)
    (pose : List LMPoseAnno) :
    Except String (List LMCamAnno × List LMPoseAnno) :=
  Except.ok (cam, pose)

/-! ### LINEMOD-Onepose adapter -/

/-- Python `str.endswith`, computed on the character lists. -/
def endsWithC (s suf : String) : Bool := suf.toList.isSuffixOf s.toList

/-- `LINEMOD_OneposeProcessor._load_rgb_files`: names of the sorted
directory listing ending in `-color.png`. -/
def onepose_load_rgb_files (dp : String) (sortedListing : List String) :
    List String :=
  (sortedListing.filter (fun n => endsWithC n "-color.png")).map (pjoin dp)

/-- `LINEMOD_OneposeProcessor._load_mask_files`: `-box.txt` files in
train split, `-box_fasterrcnn.txt` files otherwise. -/
def onepose_load_mask_files (split : String) (dp : String)
    (sortedListing : List String) : List String :=
  if split = "train" then
    (sortedListing.filter (fun n => endsWithC n "-box.txt")).map (pjoin dp)
  else
    (sortedListing.filter (fun n => endsWithC n "-box_fasterrcnn.txt")).map (pjoin dp)

/-- `read_pose` of `LINEMOD_OneposeProcessor._load_poses`: asserts the
file holds a 3×4 matrix, then assembles the 4×4 pose whose first three
rows are the file's rows (`R = mat[:, :3]`, `T = mat[:, 3]`). `none`
models the assertion failure. -/
def onepose_read_pose (mat : List (List ℚ)) : Option (List (List ℚ)) :=
  if mat.length = 3 ∧ ∀ row ∈ mat, row.length = 4 then
    some ((List.range 4).map (fun i => (List.range 4).map (fun j =>
      if i < 3 then (mat.getD i []).getD j 0
      else if i = j then 1 else 0)))
  else
    none

/-- `LINEMOD_OneposeProcessor._load_poses`: one pose per `-pose.txt`
file of the sorted listing; `fileMat` gives each file's parsed floats. -/
def onepose_load_poses (dp : String) (sortedListing : List String)
    (fileMat : String → List (List ℚ)) : List (Option (List (List ℚ))) :=
  (sortedListing.filter (fun n => endsWithC n "-pose.txt")).map
    (fun name => onepose_read_pose (fileMat (pjoin dp name)))

/-- `LINEMOD_OneposeProcessor._load_intrinsics` is literally
`return self._load_poses()`. -/
def onepose_load_intrinsics (dp : String) (sortedListing : List String)
    (fileMat : String → List (List ℚ)) : List (Option (List (List ℚ))) :=
  onepose_load_poses dp sortedListing fileMat

/-- The fixed camera matrix `self.K` of `LINEMOD_OneposeProcessor`. -/
def oneposeK : List (List ℚ) :=
  [[5724114 / 10000, 0, 3252611 / 10000],
   [0, 57357043 / 100000, 24204899 / 100000],
   [0, 0, 1]]

/-- `LINEMOD_OneposeProcessor._save_intrinsics` writes `self.K[:3]` and
ignores the intrinsics value it was handed; the result is the list of
lines (each line abstracted to the numbers written on it). -/
def onepose_save_intrinsics_lines (_intrinsics : List (List ℚ)) :
    List (List ℚ) :=
  oneposeK.take 3

/-- `np.ones(shape) * 255` as a pixel function. -/
def npFull255 : ℕ → ℕ → ℕ := fun _ _ => 255

/-- Numpy slice assignment `m[y1:y2, x1:x2] = v` as a pixel function
(row-major: first index is the row). -/
def sliceAssign (m : ℕ → ℕ → ℕ) (y1 y2 x1 x2 v : ℕ) : ℕ → ℕ → ℕ :=
  fun r c => if (y1 ≤ r ∧ r < y2) ∧ (x1 ≤ c ∧ c < x2) then v else m r c

/-- Box decoding in `LINEMOD_OneposeProcessor._process_and_save_mask`:
in train split the file holds `x1, y1, w, h`; otherwise `x1, y1, x2, y2`. -/
def onepose_box (split : String) (vals : List ℕ) : ℕ × ℕ × ℕ × ℕ :=
  let v0 := vals.getD 0 0
  let v1 := vals.getD 1 0
  let v2 := vals.getD 2 0
  let v3 := vals.getD 3 0
  if split = "train" then (v0, v1, v0 + v2, v1 + v3)
  else (v0, v1, v2, v3)

/-- The synthesized mask of
`LINEMOD_OneposeProcessor._process_and_save_mask`: a 255 canvas with the
box rectangle assigned 0. -/
def onepose_mask (split : String) (vals : List ℕ) : ℕ → ℕ → ℕ :=
  let (x1, y1, x2, y2) := onepose_box split vals
  sliceAssign npFull255 y1 y2 x1 x2 0

/-! ### Car adapter -/

/-- Camera-model dispatch of `CarProcessor._parse_annotations`:
`SIMPLE_PINHOLE`/`SIMPLE_RADIAL` take `params[0], params[1], params[2]`,
`PINHOLE` takes `params[0:4]`, anything else raises (`none`). -/
def car_read_intrinsics (model : String) (params : List ℚ) :
    Option (List (List ℚ)) :=
  if model = "SIMPLE_PINHOLE" ∨ model = "SIMPLE_RADIAL" then
    let f := params.getD 0 0
    some [[f, 0, params.getD 1 0], [0, f, params.getD 2 0], [0, 0, 1]]
  else if model = "PINHOLE" then
    some [[params.getD 0 0, 0, params.getD 2 0],
          [0, params.getD 1 0, params.getD 3 0], [0, 0, 1]]
  else
    none

/-- One Car metadata record, as built by `CarProcessor._parse_annotations`. -/
structure CarFrame where
  extrinsics : List (List ℚ)
  intrinsics : List (List ℚ)
  image : String
  mask : String
deriving DecidableEq

/-- `CarProcessor._load_rgb_files`. -/
def car_load_rgb_files (md : List CarFrame) : List String := md.map (·.image)

/-- `CarProcessor._load_mask_files`. -/
def car_load_mask_files (md : List CarFrame) : List String := md.map (·.mask)

/-- `CarProcessor._load_poses`. -/
def car_load_poses (md : List CarFrame) : List (List (List ℚ)) :=
  md.map (·.extrinsics)

/-- `CarProcessor._load_intrinsics`. -/
def car_load_intrinsics (md : List CarFrame) : List (List (List ℚ)) :=
  md.map (·.intrinsics)

/-! ### Generic dumper output names (`Processor._dump_data` and helpers) -/

/-- `Processor._copy_rgb_file`: the image keeps the RGB basename. -/
def image_out_name (rgb : List Char) : List Char := basenameC rgb

/-- `Processor._process_and_save_mask`: the mask output name is the MASK
file's basename with `.png` replaced by `.jpg`. -/
def mask_out_name (mask : List Char) : List Char :=
  replacePngJpg (basenameC mask)

/-- `Processor._save_pose` target name: the RGB stem plus `.txt`. -/
def pose_out_name (rgb : List Char) : List Char :=
  stemC rgb ++ ".txt".toList

/-- `Processor._save_intrinsics` target name: the RGB stem plus `.txt`. -/
def intr_out_name (rgb : List Char) : List Char :=
  stemC rgb ++ ".txt".toList

/-- `Processor._save_intrinsics` writes `'\n'.join(map(str, intrinsics))`:
one line per matrix row (each line abstracted to the numbers on it). -/
def base_save_intrinsics_lines (intrinsics : List (List ℚ)) :
    List (List ℚ) :=
  intrinsics.map (fun row => row)

/-! ### File-system model for `Processor._dump_data`

A file system maps paths to file contents. `shutil.rmtree(output_path)`
removes every path under the output root; the subsequent per-frame
writes are a pure function of the loaded inputs. -/

/-- Paths and contents are character lists. -/
def FS : Type := List Char → Option (List Char)

/-- `shutil.rmtree(root)`: every path under `root` is gone. -/
def rmtree (root : List Char) (fs : FS) : FS :=
  fun p => if root.isPrefixOf p then none else fs p

/-- Writing a batch of files (path, contents); paths not written keep
their previous contents. -/
def writeFiles (outs : List (List Char × List Char)) (fs : FS) : FS :=
  fun p =>
    match outs.lookup p with
    | some c => some c
    | none => fs p

/-- `Processor._dump_data` on the file system: delete any pre-existing
output root, then write the frame outputs (a pure function of the
loaded data, here the batch `outs`). -/
def dump_data_fs (root : List Char) (outs : List (List Char × List Char))
    (fs : FS) : FS :=
  writeFiles outs (rmtree root fs)

/-! ### The four-list loader (`Processor._load_data`)

`_load_data` calls the four accessors in order and stores the results;
it contains no cross-list length check and no raise. For the Onepose
adapter the four lists come from independent suffix filters. -/

/-- `Processor._load_data` as run by the Onepose adapter: the four lists,
returned unconditionally. -/
def onepose_load_data (split dp : String) (sortedListing : List String)
    (fileMat : String → List (List ℚ)) :
    List String × List String × List (Option (List (List ℚ))) ×
      List (Option (List (List ℚ))) :=
  (onepose_load_rgb_files dp sortedListing,
   onepose_load_mask_files split dp sortedListing,
   onepose_load_poses dp sortedListing fileMat,
   onepose_load_intrinsics dp sortedListing fileMat)

/-! ### Helper lemmas on path splitting -/

theorem splitOnC_ne_nil (c : Char) (l : List Char) : splitOnC c l ≠ [] := by
  induction l with
  | nil => simp [splitOnC]
  | cons a rest ih =>
    rw [splitOnC]
    split_ifs
    · simp
    · cases h : splitOnC c rest with
      | nil => simp
      | cons hd tl => simp

theorem splitOnC_no_sep {c : Char} {l : List Char} (h : c ∉ l) :
    splitOnC c l = [l] := by
  induction l with
  | nil => rfl
  | cons a rest ih =>
    rw [splitOnC]
    have ha : ¬ a = c := fun hc => h (hc ▸ List.mem_cons_self a rest)
    rw [if_neg ha, ih (fun hc => h (List.mem_cons_of_mem a hc))]

theorem splitOnC_append_sep {c : Char} {a : List Char} (b : List Char)
    (h : c ∉ a) : splitOnC c (a ++ c :: b) = a :: splitOnC c b := by
  induction a with
  | nil =>
    simp only [List.nil_append]
    rw [splitOnC, if_pos rfl]
  | cons x rest ih =>
    have hx : ¬ x = c := fun hc => h (hc ▸ List.mem_cons_self x rest)
    rw [List.cons_append, splitOnC, if_neg hx,
      ih (fun hc => h (List.mem_cons_of_mem x hc))]

theorem splitOnC_mem_no_sep {c : Char} {l : List Char} :
    ∀ x ∈ splitOnC c l, c ∉ x := by
  induction l with
  | nil =>
    intro x hx
    simp [splitOnC] at hx
    simp [hx]
  | cons a rest ih =>
    intro x hx
    rw [splitOnC] at hx
    split_ifs at hx with ha
    · rcases List.mem_cons.mp hx with rfl | hx
      · simp
      · exact ih x hx
    · cases h : splitOnC c rest with
      | nil => exact absurd h (splitOnC_ne_nil c rest)
      | cons hd tl =>
        rw [h] at hx
        rcases List.mem_cons.mp hx with rfl | hx
        · intro hc
          rcases List.mem_cons.mp hc with hc | hc
          · exact ha hc.symm
          · exact ih hd (h ▸ List.mem_cons_self hd tl) hc
        · exact ih x (h ▸ List.mem_cons_of_mem hd hx)

theorem getLastD_mem {α : Type} : ∀ (l : List α) (d : α), l ≠ [] → l.getLastD d ∈ l
  | [], _, h => absurd rfl h
  | a :: rest, d, _ => by
    rw [List.getLastD_cons]
    cases rest with
    | nil => simp
    | cons b t =>
      exact List.mem_cons_of_mem a (getLastD_mem (b :: t) a (List.cons_ne_nil b t))

theorem basenameC_no_slash (p : List Char) : '/' ∉ basenameC p := by
  unfold basenameC
  exact splitOnC_mem_no_sep _ (getLastD_mem _ _ (splitOnC_ne_nil _ _))

theorem basenameC_idem (p : List Char) : basenameC (basenameC p) = basenameC p := by
  conv_lhs => rw [basenameC, splitOnC_no_sep (basenameC_no_slash p)]
  rfl

theorem stemC_basenameC (p : List Char) : stemC (basenameC p) = stemC p := by
  unfold stemC
  rw [basenameC_idem]

theorem stem_of_ext (s e : List Char) (hdot : '.' ∉ s) (hslash : '/' ∉ s)
    (he : '/' ∉ e) : stemC (s ++ '.' :: e) = s := by
  unfold stemC basenameC
  have hmem : '/' ∉ s ++ '.' :: e := by
    intro h
    rcases List.mem_append.mp h with h | h
    · exact hslash h
    · rcases List.mem_cons.mp h with h | h
      · exact absurd h (by decide)
      · exact he h
  rw [splitOnC_no_sep hmem]
  simp only [List.getLastD_cons, List.getLastD_nil]
  rw [splitOnC_append_sep e hdot]
  rfl

theorem replace_cons (x : Char) (l : List Char) (hx : x ≠ '.') :
    replacePngJpg (x :: l) = x :: replacePngJpg l := by
  rw [replacePngJpg.eq_def]
  split
  · rename_i rest heq
    injection heq with h1 _
    exact absurd h1 hx
  · rename_i a rest heq
    injection heq with h1 h2
    subst h1
    subst h2
    rfl
  · rename_i heq
    exact absurd heq (List.cons_ne_nil x l)

theorem replace_append (s : List Char) (hdot : '.' ∉ s) :
    replacePngJpg (s ++ ['.', 'p', 'n', 'g']) = s ++ ['.', 'j', 'p', 'g'] := by
  induction s with
  | nil => rfl
  | cons x rest ih =>
    have hx : x ≠ '.' := fun hc => hdot (hc ▸ List.mem_cons_self x rest)
    rw [List.cons_append, replace_cons x _ hx,
      ih (fun hc => hdot (List.mem_cons_of_mem x hc)), List.cons_append]

/-! ## Claims -/

/-- Claim C6: the CO3D pose conversion negates the first two axes of
translation and rotation and transposes the rotation: for `R = I`,
`T = [1,2,3]` the output pose has translation column `[-1,-2,3]` and
rotation block equal to the transpose of `diag(-1,-1,1)` applied to `I`. -/
theorem co3d_pose_conversion_example :
    co3d_read_pose eye3 [1, 2, 3] =
      [[-1, 0, 0, -1], [0, -1, 0, -2], [0, 0, 1, 3], [0, 0, 0, 1]] ∧
    ((co3d_read_pose eye3 [1, 2, 3]).map (fun row => row.getD 3 0)).take 3 =
      [-1, -2, 3] ∧
    ((co3d_read_pose eye3 [1, 2, 3]).map (fun row => row.take 3)).take 3 =
      transpose3 (matMul3 (diag3 [-1, -1, 1]) eye3) := by
  refine ⟨by decide, by decide, ?_⟩
  have h : ((co3d_read_pose eye3 [1, 2, 3]).map (fun row => row.take 3)).take 3 =
      [[-1, 0, 0], [0, -1, 0], [0, 0, 1]] := by decide
  rw [h]
  norm_num [transpose3, matMul3, diag3, eye3, List.range_succ]

/-- Claim C10: the CO3D intrinsics have `fy = fx` (entry (1,1) equals
entry (0,0)), and the output depends on the NDC focal length only
through its first component: two focal-length lists agreeing in their
first entry yield identical intrinsics. -/
theorem co3d_intrinsics_fy_eq_fx_and_focal1_irrelevant :
    (∀ fl pp sz : List ℚ,
      ((co3d_read_intrinsics fl pp sz).getD 1 []).getD 1 0 =
        ((co3d_read_intrinsics fl pp sz).getD 0 []).getD 0 0) ∧
    (∀ fl fl' pp sz : List ℚ, fl.getD 0 0 = fl'.getD 0 0 →
      co3d_read_intrinsics fl pp sz = co3d_read_intrinsics fl' pp sz) := by
  constructor
  · intro fl pp sz
    rfl
  · intro fl fl' pp sz h
    simp only [co3d_read_intrinsics, h]

/-- Witness for C10 at a concrete input: focal length `[2, 5]` versus
`[2, 7]` on a 100×200 image with principal point `[1, 1]`. -/
theorem co3d_intrinsics_fy_eq_fx_and_focal1_irrelevant_witness :
    co3d_read_intrinsics [2, 5] [1, 1] [100, 200] =
      co3d_read_intrinsics [2, 7] [1, 1] [100, 200] :=
  co3d_intrinsics_fy_eq_fx_and_focal1_irrelevant.2
    [2, 5] [2, 7] [1, 1] [100, 200] (by decide)

/-- Claim C7: the LINEMOD-Onepose mask synthesized from box
`(x1,y1,x2,y2) = (10,10,50,50)` on a 100×100 canvas is 0 inside rows
10:50 and columns 10:50 and 255 everywhere else. -/
theorem onepose_bbox_mask_example :
    ∀ r c : ℕ, r < 100 → c < 100 →
      onepose_mask "test" [10, 10, 50, 50] r c =
        if 10 ≤ r ∧ r < 50 ∧ 10 ≤ c ∧ c < 50 then 0 else 255 := by
  intro r c _ _
  have hm : onepose_mask "test" [10, 10, 50, 50] =
      sliceAssign npFull255 10 50 10 50 0 := rfl
  rw [hm]
  simp only [sliceAssign, npFull255]
  split_ifs with h1 h2 h2 <;> try rfl
  · exact absurd ⟨h1.1.1, h1.1.2, h1.2⟩ h2
  · exact absurd ⟨⟨h2.1, h2.2.1⟩, h2.2.2⟩ h1

/-- Witness for C7 at concrete pixels: (20,20) is inside the box,
(5,60) is outside. -/
theorem onepose_bbox_mask_example_witness :
    onepose_mask "test" [10, 10, 50, 50] 20 20 = 0 ∧
    onepose_mask "test" [10, 10, 50, 50] 5 60 = 255 := by
  constructor
  · have h := onepose_bbox_mask_example 20 20 (by decide) (by decide)
    simpa using h
  · have h := onepose_bbox_mask_example 5 60 (by decide) (by decide)
    simpa using h

/-- Claim C2 counterexample: in the base mask-dumping step
(threshold 127) the source pixel `v = 100` satisfies `v ≤ 127` yet is
written as `155 = 255 - 100`, not `255`; so "v ≤ threshold maps to 255"
fails as stated. -/
theorem base_mask_pixel_not_255_at_100 :
    100 ≤ 127 ∧ base_mask_pixel 100 = 155 ∧ base_mask_pixel 100 ≠ 255 := by
  refine ⟨by decide, by decide, by decide⟩

/-- Claim C2 (amended): a pixel above the threshold maps to 0 in both
thresholding adapters; below or at the threshold the base step writes
`255 - v` (so 255 exactly when `v = 0`), while the LINEMOD step
(threshold 0) writes 255 for `v = 0`. -/
theorem mask_pixel_inversion (v : ℕ) (hv : v ≤ 255) :
    (127 < v → base_mask_pixel v = 0) ∧
    (v ≤ 127 → base_mask_pixel v = 255 - v) ∧
    (0 < v → linemod_mask_pixel v = 0) ∧
    (v = 0 → linemod_mask_pixel v = 255) := by
  simp only [base_mask_pixel, linemod_mask_pixel, bitwiseNot8, threshTo255]
  refine ⟨fun h => ?_, fun h => ?_, fun h => ?_, fun h => ?_⟩
  · rw [if_pos h]
  · rw [if_neg (by omega)]
  · rw [if_pos h]
  · subst h
    rfl

/-- Witness for C2 (amended) at `v = 100`. -/
theorem mask_pixel_inversion_witness :
    base_mask_pixel 100 = 255 - 100 :=
  (mask_pixel_inversion 100 (by decide)).2.1 (by decide)

/-- Claim C1 counterexample: on a LINEMOD-Onepose train-split directory
holding two `-color.png` files but only one `-box.txt` file,
`_load_data` completes without any error and leaves an RGB list of
length 2 next to a mask list of length 1: the four lists are not all of
equal length after `load()`, and no fatal mismatch error occurs. -/
theorem onepose_load_lists_length_mismatch :
    (onepose_load_data "train" "dp"
      ["a-box.txt", "a-color.png", "b-color.png"] (fun _ => [])).1.length = 2 ∧
    (onepose_load_data "train" "dp"
      ["a-box.txt", "a-color.png", "b-color.png"] (fun _ => [])).2.1.length = 1 ∧
    (2 : ℕ) ≠ 1 := by
  refine ⟨by decide, by decide, by decide⟩

/-- Claim C1 (amended): only adapters whose four lists are maps over one
shared metadata list (CO3D, Car) guarantee equal lengths after `load()`;
`_load_data` performs no cross-list length check, so for the
LINEMOD-Onepose adapter the lists can differ in length with no fatal
error before dumping. Here: the CO3D and Car lists always have equal
length (the length of the shared metadata). -/
theorem co3d_car_load_lists_equal_length :
    ∀ (dp : String) (md : List CO3DFrame) (cmd : List CarFrame),
      (co3d_load_rgb_files dp md).length = (co3d_load_mask_files dp md).length ∧
      (co3d_load_mask_files dp md).length = (co3d_load_poses md).length ∧
      (co3d_load_poses md).length = (co3d_load_intrinsics md).length ∧
      (car_load_rgb_files cmd).length = (car_load_mask_files cmd).length ∧
      (car_load_mask_files cmd).length = (car_load_poses cmd).length ∧
      (car_load_poses cmd).length = (car_load_intrinsics cmd).length := by
  intro dp md cmd
  simp [co3d_load_rgb_files, co3d_load_mask_files, co3d_load_poses,
    co3d_load_intrinsics, car_load_rgb_files, car_load_mask_files,
    car_load_poses, car_load_intrinsics]

/-- Claim C5 counterexample: the LINEMOD adapter's parsing step has no
length check at all: with a requested length of exactly 0 it still
succeeds (no "empty sequence" error is ever raised by it). -/
theorem linemod_parse_succeeds_at_length_zero :
    linemod_parse_annos (some 0)
        [⟨[500, 0, 320, 0, 500, 240, 0, 0, 1]⟩]
        [⟨[1, 0, 0, 0, 1, 0, 0, 0, 1], [0, 0, 0]⟩] =
      Except.ok ([⟨[500, 0, 320, 0, 500, 240, 0, 0, 1]⟩],
        [⟨[1, 0, 0, 0, 1, 0, 0, 0, 1], [0, 0, 0]⟩]) := by
  rfl

/-- Claim C5 (amended): only the CO3D adapter raises the fatal
"empty sequence" error when the requested frame count is exactly 0; it
does so during its parsing step, whatever the metadata is. The LINEMOD,
LINEMOD-Onepose and Car adapters perform no such check. -/
theorem co3d_empty_sequence_check :
    ∀ md : List CO3DFrame,
      co3d_length_check (some 0) md = Except.error "empty sequence" := by
  intro md
  simp [co3d_length_check]

/-- Claim C9: `LINEMOD_OneposeProcessor._load_intrinsics` returns
exactly `_load_poses()` (a list of 4×4 pose matrices), and the dumped
intrinsics file always holds the one fixed matrix `K`, independent of
the intrinsics value handed to the writer. -/
theorem onepose_intrinsics_are_poses_and_K_fixed :
    (∀ (dp : String) (l : List String) (fc : String → List (List ℚ)),
      onepose_load_intrinsics dp l fc = onepose_load_poses dp l fc) ∧
    (∀ (m P : List (List ℚ)), onepose_read_pose m = some P →
      P.length = 4 ∧ ∀ row ∈ P, row.length = 4) ∧
    (∀ M N : List (List ℚ),
      onepose_save_intrinsics_lines M = onepose_save_intrinsics_lines N) ∧
    (∀ M : List (List ℚ), onepose_save_intrinsics_lines M = oneposeK) := by
  refine ⟨fun dp l fc => rfl, ?_, fun M N => rfl, fun M => rfl⟩
  intro m P h
  rw [onepose_read_pose] at h
  split_ifs at h
  obtain rfl := Option.some_injective _ h.symm
  constructor
  · simp
  · intro row hrow
    simp only [List.mem_map, List.mem_range] at hrow
    obtain ⟨i, _, rfl⟩ := hrow
    simp

/-- Witness for C9 at a concrete 3×4 pose file. -/
theorem onepose_intrinsics_are_poses_and_K_fixed_witness :
    ([[1, 0, 0, 5], [0, 1, 0, 6], [0, 0, 1, 7], [0, 0, 0, 1]] :
        List (List ℚ)).length = 4 ∧
    ∀ row ∈ ([[1, 0, 0, 5], [0, 1, 0, 6], [0, 0, 1, 7], [0, 0, 0, 1]] :
        List (List ℚ)), row.length = 4 :=
  onepose_intrinsics_are_poses_and_K_fixed.2.1
    [[1, 0, 0, 5], [0, 1, 0, 6], [0, 0, 1, 7]]
    [[1, 0, 0, 5], [0, 1, 0, 6], [0, 0, 1, 7], [0, 0, 0, 1]]
    (by decide)

/-- Claim C3: every intrinsics file written under `intrinsics/` has 3
lines of 3 numbers: the CO3D, LINEMOD and Car intrinsics matrices are
3×3 and the base writer emits one line per row, and the Onepose writer
always emits the 3 rows of `K`. -/
theorem intrinsics_files_are_3x3 :
    (∀ fl pp sz : List ℚ,
      (base_save_intrinsics_lines (co3d_read_intrinsics fl pp sz)).length = 3 ∧
      ∀ ln ∈ base_save_intrinsics_lines (co3d_read_intrinsics fl pp sz),
        ln.length = 3) ∧
    (∀ anno : LMCamAnno,
      (base_save_intrinsics_lines (linemod_read_intrinsics anno)).length = 3 ∧
      ∀ ln ∈ base_save_intrinsics_lines (linemod_read_intrinsics anno),
        ln.length = 3) ∧
    (∀ (model : String) (params : List ℚ) (M : List (List ℚ)),
      car_read_intrinsics model params = some M →
      (base_save_intrinsics_lines M).length = 3 ∧
      ∀ ln ∈ base_save_intrinsics_lines M, ln.length = 3) ∧
    (∀ M : List (List ℚ),
      (onepose_save_intrinsics_lines M).length = 3 ∧
      ∀ ln ∈ onepose_save_intrinsics_lines M, ln.length = 3) := by
  refine ⟨?_, ?_, ?_, ?_⟩
  · intro fl pp sz
    constructor
    · rfl
    · intro ln hln
      simp [base_save_intrinsics_lines, co3d_read_intrinsics] at hln
      rcases hln with h | h | h <;> simp [h]
  · intro anno
    constructor
    · rfl
    · intro ln hln
      simp [base_save_intrinsics_lines, linemod_read_intrinsics] at hln
      rcases hln with h | h | h <;> simp [h]
  · intro model params M h
    rw [car_read_intrinsics] at h
    split_ifs at h <;>
      · obtain rfl := Option.some_injective _ h.symm
        constructor
        · rfl
        · intro ln hln
          simp [base_save_intrinsics_lines] at hln
          rcases hln with h | h | h <;> simp [h]
  · intro M
    constructor
    · rfl
    · intro ln hln
      simp [onepose_save_intrinsics_lines, oneposeK] at hln
      rcases hln with h | h | h <;> simp [h]

/-- Witness for C3 at a concrete Car `PINHOLE` camera. -/
theorem intrinsics_files_are_3x3_witness :
    (base_save_intrinsics_lines
      ([[1, 0, 3], [0, 2, 4], [0, 0, 1]] : List (List ℚ))).length = 3 ∧
    ∀ ln ∈ base_save_intrinsics_lines
      ([[1, 0, 3], [0, 2, 4], [0, 0, 1]] : List (List ℚ)), ln.length = 3 :=
  intrinsics_files_are_3x3.2.2.1 "PINHOLE" [1, 2, 3, 4]
    [[1, 0, 3], [0, 2, 4], [0, 0, 1]] (by rfl)

/-- Claim C8: `_dump_data` deletes everything under the output root and
then writes outputs that are a pure function of the loaded inputs:
(1) every path joined below the root is under the root, (2) the
resulting tree under the root does not depend on the previous file
system (so two runs on identical inputs produce identical trees), and
(3) dumping twice equals dumping once, on every path. -/
theorem dump_data_fresh_and_idempotent :
    (∀ root rest : List Char, root.isPrefixOf (root ++ rest) = true) ∧
    (∀ (root : List Char) (outs : List (List Char × List Char))
       (fs fs' : FS) (p : List Char), root.isPrefixOf p = true →
      dump_data_fs root outs fs p = dump_data_fs root outs fs' p) ∧
    (∀ (root : List Char) (outs : List (List Char × List Char))
       (fs : FS) (p : List Char),
      dump_data_fs root outs (dump_data_fs root outs fs) p =
        dump_data_fs root outs fs p) := by
  refine ⟨?_, ?_, ?_⟩
  · intro root rest
    induction root with
    | nil => simp [List.isPrefixOf]
    | cons a l ih => simp [List.isPrefixOf, ih]
  · intro root outs fs fs' p h
    simp only [dump_data_fs, writeFiles, rmtree]
    cases outs.lookup p with
    | some c => rfl
    | none => simp [h]
  · intro root outs fs p
    simp only [dump_data_fs, writeFiles, rmtree]
    cases houts : outs.lookup p with
    | some c => rfl
    | none =>
      cases h : root.isPrefixOf p with
      | true => rfl
      | false => simp [houts]

/-- Witness for C8 at a concrete root, path and two prior states. -/
theorem dump_data_fresh_and_idempotent_witness :
    dump_data_fs "/out".toList [] (fun _ => some "stale".toList)
        "/out/images/a.png".toList =
      dump_data_fs "/out".toList [] (fun _ => none)
        "/out/images/a.png".toList :=
  dump_data_fresh_and_idempotent.2.1 "/out".toList []
    (fun _ => some "stale".toList) (fun _ => none)
    "/out/images/a.png".toList (by decide)

/-- Claim C4 counterexample: `_dump_data` names the mask output after
the MASK file's basename, not the RGB file's. For a frame whose RGB
file is `images/frame1.jpg` and whose mask file is `masks/m1.png` (the
CO3D mask path comes from the annotation and need not match), the mask
output stem is `m1` while the RGB-derived stem is `frame1`. -/
theorem mask_out_stem_differs_from_rgb_stem :
    stemC (mask_out_name "masks/m1.png".toList) = "m1".toList ∧
    stemC (image_out_name "images/frame1.jpg".toList) = "frame1".toList ∧
    stemC (pose_out_name "images/frame1.jpg".toList) = "frame1".toList ∧
    stemC (intr_out_name "images/frame1.jpg".toList) = "frame1".toList ∧
    stemC (mask_out_name "masks/m1.png".toList) ≠
      stemC "images/frame1.jpg".toList := by
  refine ⟨by decide, by decide, by decide, by decide, by decide⟩

/-- Claim C4 (amended): the image, pose and intrinsics outputs share the
stem derived from the RGB basename (extension stripped); the mask output
is named from the mask file's own basename (`.png` → `.jpg`), so it
shares that stem only when the mask basename equals the RGB stem plus
`.png` — as it does for LINEMOD and Car frames, but as the CO3D
annotation does not guarantee. -/
theorem output_stems_shared (rgb mask s : List Char)
    (hmask : basenameC mask = s ++ ".png".toList)
    (hstem : stemC rgb = s)
    (hdot : '.' ∉ s) (hslash : '/' ∉ s) :
    stemC (image_out_name rgb) = s ∧
    stemC (mask_out_name mask) = s ∧
    stemC (pose_out_name rgb) = s ∧
    stemC (intr_out_name rgb) = s := by
  have hpng : ".png".toList = ['.', 'p', 'n', 'g'] := rfl
  have htxt : ".txt".toList = ('.' : Char) :: ['t', 'x', 't'] := rfl
  refine ⟨?_, ?_, ?_, ?_⟩
  · rw [image_out_name, stemC_basenameC, hstem]
  · rw [mask_out_name, hmask, hpng, replace_append s hdot]
    exact stem_of_ext s ['j', 'p', 'g'] hdot hslash (by decide)
  · rw [pose_out_name, hstem, htxt]
    exact stem_of_ext s ['t', 'x', 't'] hdot hslash (by decide)
  · rw [intr_out_name, hstem, htxt]
    exact stem_of_ext s ['t', 'x', 't'] hdot hslash (by decide)

/-- Witness for C4 (amended) at a concrete Car-style frame, where the
mask basename does equal the RGB stem plus `.png`. -/
theorem output_stems_shared_witness :
    stemC (image_out_name "images/frame1.png".toList) = "frame1".toList ∧
    stemC (mask_out_name "masks/frame1.png".toList) = "frame1".toList ∧
    stemC (pose_out_name "images/frame1.png".toList) = "frame1".toList ∧
    stemC (intr_out_name "images/frame1.png".toList) = "frame1".toList :=
  output_stems_shared "images/frame1.png".toList "masks/frame1.png".toList
    "frame1".toList (by decide) (by decide) (by decide) (by decide)

end DataProcessor
